import Mathlib

/-!
Verification development for the spherical-world locomotion core of the
maximillian-may portfolio repository (controls module, physics.js, config.js,
main.js, character module).  JavaScript floating-point numbers are embedded
as exact rationals; the transcendental values produced by Math.sin / Math.cos
are passed in as rational parameters constrained by the Pythagorean identity
where a proof needs it.
-/

namespace MaxWorld

/-! ### Configuration constants (src/js/config.js) -/

/-- config.js line 47: CAMERA_DISTANCE_IDLE = 1.2 -/
def CAMERA_DISTANCE_IDLE : ℚ := 6/5

/-- config.js line 48: CAMERA_DISTANCE_WALKING = 1.7 -/
def CAMERA_DISTANCE_WALKING : ℚ := 17/10

/-- config.js line 49: CAMERA_DISTANCE_SPRINTING = 2.5 -/
def CAMERA_DISTANCE_SPRINTING : ℚ := 5/2

/-- config.js line 60: MAX_MOVE_SPEED = 0.125 -/
def MAX_MOVE_SPEED : ℚ := 1/8

/-- config.js line 61: MOVE_ACCELERATION = 0.8 -/
def MOVE_ACCELERATION : ℚ := 4/5

/-- config.js line 62: MOVE_DECELERATION = 1.5 -/
def MOVE_DECELERATION : ℚ := 3/2

/-- config.js line 67: SPRINT_MULTIPLIER = 2.0 -/
def SPRINT_MULTIPLIER : ℚ := 2

/-- config.js line 68: SPRINT_ACCELERATION_MULTIPLIER = 1.5 -/
def SPRINT_ACCELERATION_MULTIPLIER : ℚ := 3/2

/-- config.js line 71: GRAVITY = 20.0 -/
def GRAVITY : ℚ := 20

/-- config.js line 74: CHARACTER_HEIGHT = 0.075 -/
def CHARACTER_HEIGHT : ℚ := 3/40

/-- config.js line 75: SPAWN_HEIGHT = 13 -/
def SPAWN_HEIGHT : ℚ := 13

/-- physics.js line 14: physics.jumpForce = 5.0 -/
def jumpForce : ℚ := 5

/-- main.js line 92: jumpChargeDelay = 0.3 (300ms charge-up delay) -/
def jumpChargeDelay : ℚ := 3/10

/-! ### Quaternions (three.js Quaternion, rational components) -/

/-- A quaternion with rational components, mirroring THREE.Quaternion
storage order (x, y, z, w). -/
structure Quat where
  x : ℚ
  y : ℚ
  z : ℚ
  w : ℚ
  deriving DecidableEq, Repr

/-- THREE.Quaternion.multiplyQuaternions(a, b): the Hamilton product a * b. -/
def qmul (a b : Quat) : Quat :=
  ⟨a.x * b.w + a.w * b.x + a.y * b.z - a.z * b.y,
   a.y * b.w + a.w * b.y + a.z * b.x - a.x * b.z,
   a.z * b.w + a.w * b.z + a.x * b.y - a.y * b.x,
   a.w * b.w - a.x * b.x - a.y * b.y - a.z * b.z⟩

/-- Squared norm of a quaternion; a unit quaternion has normSq = 1. -/
def normSq (q : Quat) : ℚ := q.x * q.x + q.y * q.y + q.z * q.z + q.w * q.w

/-- The identity quaternion (0, 0, 0, 1), as set by quaternion.set(0, 0, 0, 1). -/
def qIdentity : Quat := ⟨0, 0, 0, 1⟩

/-- The incremental planet-rotation update of handleMovement (controls module
line 464): planetGroup.quaternion.multiplyQuaternions(rotation, planetGroup.quaternion),
i.e. the stored quaternion is left-multiplied by the increment.  No
normalization call follows. -/
def rotatePlanet (inc q : Quat) : Quat := qmul inc q

/-- The increment built in handleMovement lines 446-458: forwardWorld =
(sin h, 0, cos h); rotationAxis = cross((0,1,0), forwardWorld) = (cos h, 0, -sin h),
which already has length 1 when sin h and cos h satisfy the unit-circle identity,
so THREE.Vector3.normalize leaves it unchanged; setFromAxisAngle(axis, angle)
yields (axis * sin(angle/2), cos(angle/2)).  sinH, cosH stand for Math.sin /
Math.cos of the heading and sinHalf, cosHalf for the half-angle sine and cosine. -/
def mkRotationIncrement (sinH cosH sinHalf cosHalf : ℚ) : Quat :=
  ⟨cosH * sinHalf, 0 * sinHalf, -sinH * sinHalf, cosHalf⟩

/-! ### Locomotion speed update (controls module, handleMovement lines 433-441) -/

/-- Per-tick movement intent, a snapshot of the keys object: w / s are the
forward / backward keys, shift is the sprint key (isSprinting = keys.shift,
controls module line 418). -/
structure MoveInput where
  w : Bool
  s : Bool
  shift : Bool
  deriving DecidableEq, Repr

/-- controls module line 434: maxSpeed = isSprinting ? MAX_MOVE_SPEED * SPRINT_MULTIPLIER : MAX_MOVE_SPEED. -/
def effectiveMaxSpeed (sprinting : Bool) : ℚ :=
  if sprinting then MAX_MOVE_SPEED * SPRINT_MULTIPLIER else MAX_MOVE_SPEED

/-- controls module line 435: acceleration = isSprinting ? MOVE_ACCELERATION * SPRINT_ACCELERATION_MULTIPLIER : MOVE_ACCELERATION. -/
def effectiveAcceleration (sprinting : Bool) : ℚ :=
  if sprinting then MOVE_ACCELERATION * SPRINT_ACCELERATION_MULTIPLIER else MOVE_ACCELERATION

/-- controls module lines 437-441: the currentMoveSpeed update of handleMovement.
With forward or backward intent the speed accelerates and is clamped by min at
the sprint-dependent maximum; otherwise it decays at MOVE_DECELERATION and is
clamped by max at zero. -/
def handleMovementSpeed (inp : MoveInput) (dt speed : ℚ) : ℚ :=
  if inp.w || inp.s then
    min (speed + effectiveAcceleration inp.shift * dt) (effectiveMaxSpeed inp.shift)
  else
    max (speed - MOVE_DECELERATION * dt) 0

/-- Folds the speed update over a list of (input, deltaTime) ticks. -/
def runSpeed (ticks : List (MoveInput × ℚ)) (speed : ℚ) : ℚ :=
  ticks.foldl (fun s t => handleMovementSpeed t.1 t.2 s) speed

/-! ### Forward collision check (src/js/physics.js, checkForwardCollision lines 121-143) -/

/-- Result of the short-range forward raycast (raycaster far = 0.2): the y
coordinate of the nearest intersection point and its distance along the ray,
or none when nothing is hit.  The ray geometry itself (origin at character
height, direction from heading and move direction) is owned by the rendering
collaborators; the probe result is what the collision test consumes. -/
def ForwardHit := Option (ℚ × ℚ)

/-- physics.js lines 132-142: given the probe result and the character y
position, report a blocking collision when the implied step height
(obstacleHeight - (position.y - CHARACTER_HEIGHT)) exceeds 0.05 or the
obstacle distance is below 0.15; no hit means no collision. -/
def checkForwardCollision (hit : ForwardHit) (posY : ℚ) : Bool :=
  match hit with
  | some (obstacleHeight, obstacleDistance) =>
      let stepHeight := obstacleHeight - (posY - CHARACTER_HEIGHT)
      stepHeight > 1/20 || obstacleDistance < 3/20
  | none => false

/-! ### Planet rotation step of handleMovement (controls module lines 443-466) -/

/-- Locomotion-visible state: the accumulated movement speed and the planet
orientation quaternion. -/
structure LocoState where
  speed : ℚ
  planetQ : Quat
  deriving DecidableEq, Repr

/-- Everything handleMovement consumes on one tick besides the locomotion
state: the key snapshot, the frame delta, the detached-camera flag, the
character y position seen by the forward probe, the probe result itself, and
the rational stand-ins for the trigonometric values used to build the
incremental rotation (sine/cosine of the heading, and of half the rotation
angle direction * currentMoveSpeed * deltaTime). -/
structure LocoTick where
  inp : MoveInput
  dt : ℚ
  detached : Bool
  posY : ℚ
  hit : ForwardHit
  sinH : ℚ
  cosH : ℚ
  sinHalf : ℚ
  cosHalf : ℚ

/-- controls module lines 433-466: one handleMovement tick restricted to the
speed and planet-quaternion effects.  The speed is updated first (lines
437-441); then, if the updated speed is positive, a move key is down and the
camera is not detached, the incremental rotation is built and applied unless
checkForwardCollision reports a blocking hit, in which case the planet
quaternion is left untouched for this tick. -/
def handleMovementPlanet (t : LocoTick) (st : LocoState) : LocoState :=
  let speed := handleMovementSpeed t.inp t.dt st.speed
  if speed > 0 ∧ (t.inp.w || t.inp.s) = true ∧ t.detached = false then
    if checkForwardCollision t.hit t.posY then
      ⟨speed, st.planetQ⟩
    else
      ⟨speed, rotatePlanet (mkRotationIncrement t.sinH t.cosH t.sinHalf t.cosHalf) st.planetQ⟩
  else
    ⟨speed, st.planetQ⟩

/-- Folds handleMovement ticks over the locomotion state. -/
def runLoco (ticks : List LocoTick) (st : LocoState) : LocoState :=
  ticks.foldl (fun s t => handleMovementPlanet t s) st

/-! ### Jump charge protocol (controls module lines 326-337, main.js lines 89-100) -/

/-- The jump-relevant slice of the physics object (physics.js lines 10-18)
plus the vertical velocity component. -/
structure JumpState where
  vy : ℚ
  isGrounded : Bool
  jumpCharging : Bool
  jumpChargeTime : ℚ
  deriving DecidableEq, Repr

/-- controls module lines 326-330: the Space keydown handler starts a jump
charge only when the character is grounded and not already charging; it then
sets jumpCharging and resets jumpChargeTime.  Otherwise the handler leaves the
physics state unchanged. -/
def jumpRequest (s : JumpState) : JumpState :=
  if s.isGrounded ∧ s.jumpCharging = false then
    { s with jumpCharging := true, jumpChargeTime := 0 }
  else s

/-- main.js lines 90-100: each frame while jumpCharging, accumulate the frame
delta into jumpChargeTime; once it reaches jumpChargeDelay, set the vertical
velocity to jumpForce and clear isGrounded and jumpCharging. -/
def jumpChargeTick (dt : ℚ) (s : JumpState) : JumpState :=
  if s.jumpCharging then
    let t := s.jumpChargeTime + dt
    if t ≥ jumpChargeDelay then
      ⟨jumpForce, false, false, t⟩
    else
      { s with jumpChargeTime := t }
  else s

/-! ### Vertical physics (src/js/physics.js, updatePhysics lines 42-118) -/

/-- Character vertical state: height (characterGroup.position.y), vertical
velocity (physics.velocity.y) and the grounded flag. -/
structure PhysState where
  y : ℚ
  vy : ℚ
  isGrounded : Bool
  deriving DecidableEq, Repr

/-- A downward raycast abstraction: given the ray origin height and the
raycaster far limit, return the y coordinate of the nearest surface hit below,
or none.  Instantiations must only report surfaces within range; the flat
probe below is the canonical instance. -/
def DownRay := ℚ → ℚ → Option ℚ

/-- physics.js lines 45-103: gravity integration and the swept descent
collision resolution, before the safety check.  Matches the source branch for
branch: gravity is applied to the velocity, the movement delta computed, and
when descending the ray along the movement path (far = |delta| + 1.0) decides
between snapping to ground (within the velocity-scaled tolerance, or about to
clip through) and free fall. -/
def updatePhysicsDescent (ray : DownRay) (dt : ℚ) (s : PhysState) : PhysState :=
  let vy := s.vy - GRAVITY * dt
  let movementDelta := vy * dt
  let currentY := s.y
  let newY := currentY + movementDelta
  if movementDelta < 0 then
    match ray currentY (|movementDelta| + 1) with
    | some groundY =>
        let groundOffset : ℚ := 3/100
        let targetY := groundY + groundOffset
        let distanceToGround := currentY - groundY
        let groundTolerance := 1/20 + |vy| * (1/50)
        if distanceToGround ≤ groundTolerance ∧ vy ≤ 0 then
          ⟨targetY, 0, true⟩
        else if newY ≤ groundY + groundOffset then
          ⟨targetY, 0, true⟩
        else
          ⟨newY, vy, false⟩
    | none => ⟨newY, vy, false⟩
  else
    ⟨newY, vy, false⟩

/-- physics.js lines 42-118: the whole updatePhysics tick: the descent
resolution above followed by the independent long-range (far = 50) safety
raycast from the pre-update height; if the resolved height ended up below the
detected surface, teleport to groundY + 0.5 and zero the velocity. -/
def updatePhysics (ray : DownRay) (dt : ℚ) (s : PhysState) : PhysState :=
  let s1 := updatePhysicsDescent ray dt s
  match ray s.y 50 with
  | some groundY =>
      if s1.y < groundY then ⟨groundY + 1/2, 0, true⟩ else s1
  | none => s1

/-- A downward ray over an infinite flat surface at height g: a cast from
origin hits the surface exactly when the origin is at or above it and the
distance down to it is within the far limit. -/
def flatProbe (g : ℚ) : DownRay :=
  fun origin far => if g ≤ origin ∧ origin - g ≤ far then some g else none

/-! ### Bird's-eye (detached) camera toggle (controls module lines 358-393, 470-479) -/

/-- The module-level state read and written by toggleBirdEyeView and the
detached branch of updateCamera: the mode and drag flags, the live planet
quaternion / character rotation / character position / visibility, the
bird's-eye orbit rotation, and the three saved-state slots (controls module
lines 44-53). -/
structure ViewState where
  detachedCamera : Bool
  isDragging : Bool
  planetQuaternion : Quat
  characterRotation : ℚ
  characterPosition : ℚ × ℚ × ℚ
  characterVisible : Bool
  birdEyeRotation : Quat
  savedPlanetRotation : Quat
  savedCharacterRotation : ℚ
  savedCharacterPosition : ℚ × ℚ × ℚ
  deriving DecidableEq, Repr

/-- controls module lines 358-393: toggleBirdEyeView.  Entering saves the
planet quaternion, character rotation and character position, seeds the
bird's-eye rotation from the planet quaternion and hides the character;
leaving restores the three saved values, clears the drag flag and shows the
character again. -/
def toggleBirdEyeView (s : ViewState) : ViewState :=
  if s.detachedCamera = false then
    { s with detachedCamera := true,
             savedPlanetRotation := s.planetQuaternion,
             savedCharacterRotation := s.characterRotation,
             savedCharacterPosition := s.characterPosition,
             birdEyeRotation := s.planetQuaternion,
             characterVisible := false }
  else
    { s with detachedCamera := false,
             isDragging := false,
             planetQuaternion := s.savedPlanetRotation,
             characterRotation := s.savedCharacterRotation,
             characterPosition := s.savedCharacterPosition,
             characterVisible := true }

/-- controls module line 473: while detached, updateCamera copies the
bird's-eye rotation onto the planet quaternion each frame.  With no drag input
the bird's-eye rotation itself is never modified. -/
def updateCameraDetachedPlanet (s : ViewState) : ViewState :=
  { s with planetQuaternion := s.birdEyeRotation }

/-! ### Follow-mode camera distance (controls module lines 482-487) -/

/-- controls module lines 482-485: per-state target camera distance, selected
by whether a move key is down and whether sprinting. -/
def cameraTargetDistance (moving sprinting : Bool) : ℚ :=
  if moving then
    if sprinting then CAMERA_DISTANCE_SPRINTING else CAMERA_DISTANCE_WALKING
  else CAMERA_DISTANCE_IDLE

/-- controls module lines 486-487: one exponential-lerp step of the current
camera distance toward the target, with fixed factor 0.025. -/
def lerpCameraDistance (current target : ℚ) : ℚ :=
  current + (target - current) * (1/40)

/-! ### Reset to spawn (controls module lines 396-411, character module lines 267-276) -/

/-- The state written by resetToSpawn: character anchor position, character
heading (characterRotation, character module lines 267-276), the velocity
vector and grounded flag of the physics object, and the planet quaternion. -/
structure SpawnState where
  characterPosition : ℚ × ℚ × ℚ
  characterRotation : ℚ
  velocity : ℚ × ℚ × ℚ
  isGrounded : Bool
  planetQuaternion : Quat
  deriving DecidableEq, Repr

/-- controls module lines 396-411: resetToSpawn.  piVal is the rational
stand-in for the float Math.PI passed to setCharacterRotation; the two Option
arguments model the window.initialSpawnY and window.initialSpawnRotation
globals, absent before the world loader stores them.  The JavaScript
short-circuit (window.initialSpawnY || SPAWN_HEIGHT) also falls back when the
stored number is 0, hence the explicit zero test. -/
def resetToSpawn (piVal : ℚ) (initialSpawnY : Option ℚ)
    (initialSpawnRotation : Option Quat) (s : SpawnState) : SpawnState :=
  let resetY := match initialSpawnY with
    | some yv => if yv = 0 then SPAWN_HEIGHT else yv
    | none => SPAWN_HEIGHT
  { s with characterPosition := (0, resetY, 0),
           characterRotation := piVal,
           velocity := (0, 0, 0),
           isGrounded := false,
           planetQuaternion := match initialSpawnRotation with
             | some q => q
             | none => qIdentity }

/-! ## Helper lemmas -/

/-- The squared norm is multiplicative for the Hamilton product. -/
theorem normSq_qmul (a b : Quat) : normSq (qmul a b) = normSq a * normSq b := by
  simp only [normSq, qmul]
  ring

/-- One speed-update tick keeps the speed inside [0, MAX_MOVE_SPEED * SPRINT_MULTIPLIER]. -/
theorem handleMovementSpeed_mem (inp : MoveInput) (dt s : ℚ) (hdt : 0 ≤ dt)
    (h0 : 0 ≤ s) (h1 : s ≤ MAX_MOVE_SPEED * SPRINT_MULTIPLIER) :
    0 ≤ handleMovementSpeed inp dt s ∧
    handleMovementSpeed inp dt s ≤ MAX_MOVE_SPEED * SPRINT_MULTIPLIER := by
  unfold handleMovementSpeed effectiveAcceleration effectiveMaxSpeed
  unfold MAX_MOVE_SPEED SPRINT_MULTIPLIER MOVE_ACCELERATION
    SPRINT_ACCELERATION_MULTIPLIER MOVE_DECELERATION at *
  rcases inp with ⟨w, s', sh⟩
  rcases w <;> rcases s' <;> rcases sh <;> simp_all <;> nlinarith

/-- The speed bound is preserved by any sequence of ticks with nonnegative deltas. -/
theorem runSpeed_mem (ticks : List (MoveInput × ℚ)) (s0 : ℚ)
    (hdt : ∀ p ∈ ticks, 0 ≤ p.2) (h0 : 0 ≤ s0)
    (h1 : s0 ≤ MAX_MOVE_SPEED * SPRINT_MULTIPLIER) :
    0 ≤ runSpeed ticks s0 ∧ runSpeed ticks s0 ≤ MAX_MOVE_SPEED * SPRINT_MULTIPLIER := by
  induction ticks generalizing s0 with
  | nil => exact ⟨h0, h1⟩
  | cons p rest ih =>
      have hp : 0 ≤ p.2 := hdt p (List.mem_cons_self p rest)
      have hstep := handleMovementSpeed_mem p.1 p.2 s0 hp h0 h1
      exact ih (handleMovementSpeed p.1 p.2 s0)
        (fun q hq => hdt q (List.mem_cons_of_mem p hq)) hstep.1 hstep.2

/-! ## C1: speed envelope with sprint -/

/-- C1 counterexample: two sprint-forward ticks (shift and w held, frame delta
0.1) drive currentMoveSpeed to 0.24; the next tick releases every key, so
sprinting is false and effectiveMax is MAX_MOVE_SPEED = 0.125, but the speed
only decays to 0.225, violating the claimed envelope
0 <= currentSpeed <= effectiveMax on that tick. -/
theorem speed_envelope_sprint_cex :
    runSpeed [(⟨true, false, true⟩, 1/10), (⟨true, false, true⟩, 1/10),
              (⟨false, false, false⟩, 1/100)] 0 = 9/40 ∧
    effectiveMaxSpeed false = 1/8 ∧
    ¬ (runSpeed [(⟨true, false, true⟩, 1/10), (⟨true, false, true⟩, 1/10),
                 (⟨false, false, false⟩, 1/100)] 0 ≤ effectiveMaxSpeed false) := by
  norm_num [runSpeed, handleMovementSpeed, effectiveMaxSpeed, effectiveAcceleration,
    MAX_MOVE_SPEED, MOVE_ACCELERATION, MOVE_DECELERATION, SPRINT_MULTIPLIER,
    SPRINT_ACCELERATION_MULTIPLIER, List.foldl, min_def, max_def]

/-- C1 (amended): on every tick with forward or backward move intent the speed
is updated to min(speed + accel * sprintAccelMultiplier * dt,
maxSpeed * sprintMultiplier) when sprinting and min(speed + accel * dt,
maxSpeed) when not, hence is bounded by that effectiveMax after every such
tick; and every tick sequence with nonnegative deltas keeps currentSpeed in
[0, maxSpeed * sprintMultiplier].  The claimed per-tick bound currentSpeed <=
effectiveMax does not survive ticks without move intent after sprint release
(see the counterexample), so the global envelope uses the sprint maximum. -/
theorem speed_envelope_sprint (ticks : List (MoveInput × ℚ)) (s0 : ℚ)
    (hdt : ∀ p ∈ ticks, 0 ≤ p.2) (h0 : 0 ≤ s0)
    (h1 : s0 ≤ MAX_MOVE_SPEED * SPRINT_MULTIPLIER) :
    (0 ≤ runSpeed ticks s0 ∧ runSpeed ticks s0 ≤ MAX_MOVE_SPEED * SPRINT_MULTIPLIER) ∧
    (∀ (inp : MoveInput) (dt s : ℚ), (inp.w || inp.s) = true →
      handleMovementSpeed inp dt s
          = min (s + effectiveAcceleration inp.shift * dt) (effectiveMaxSpeed inp.shift) ∧
        handleMovementSpeed inp dt s ≤ effectiveMaxSpeed inp.shift) := by
  refine ⟨runSpeed_mem ticks s0 hdt h0 h1, fun inp dt s hmove => ?_⟩
  constructor
  · simp [handleMovementSpeed, hmove]
  · simp only [handleMovementSpeed, hmove, if_true]
    exact min_le_right _ _

/-- C1 witness: the amended theorem applied to a single sprint-forward tick of
length 1/60 starting from rest. -/
theorem speed_envelope_sprint_witness :
    0 ≤ runSpeed [(⟨true, false, true⟩, 1/60)] 0 ∧
    runSpeed [(⟨true, false, true⟩, 1/60)] 0 ≤ MAX_MOVE_SPEED * SPRINT_MULTIPLIER ∧
    handleMovementSpeed ⟨true, false, true⟩ (1/60) 0 ≤ effectiveMaxSpeed true := by
  have h := speed_envelope_sprint [(⟨true, false, true⟩, 1/60)] 0
    (by intro p hp; rcases List.mem_singleton.mp hp with rfl; norm_num)
    le_rfl (by norm_num [MAX_MOVE_SPEED, SPRINT_MULTIPLIER])
  exact ⟨h.1.1, h.1.2, (h.2 ⟨true, false, true⟩ (1/60) 0 rfl).2⟩

/-! ## C9: deceleration monotonicity -/

/-- With no move key down, one tick is exactly the clamped linear decay. -/
theorem handleMovementSpeed_idle (sh : Bool) (dt s : ℚ) :
    handleMovementSpeed ⟨false, false, sh⟩ dt s = max (s - MOVE_DECELERATION * dt) 0 := by
  simp [handleMovementSpeed]

/-- Closed form for iterated idle ticks from a nonnegative start. -/
theorem handleMovementSpeed_idle_iterate (sh : Bool) (dt s : ℚ) (hdt : 0 ≤ dt)
    (hs : 0 ≤ s) (n : ℕ) :
    (fun v => handleMovementSpeed ⟨false, false, sh⟩ dt v)^[n] s
      = max (s - n * (MOVE_DECELERATION * dt)) 0 := by
  induction n with
  | zero => simpa using (max_eq_left hs).symm
  | succ k ih =>
      rw [Function.iterate_succ_apply', ih, handleMovementSpeed_idle]
      have hd : 0 ≤ MOVE_DECELERATION * dt := by
        unfold MOVE_DECELERATION; nlinarith
      rcases le_or_lt 0 (s - k * (MOVE_DECELERATION * dt)) with hge | hlt
      · rw [max_eq_left hge]
        congr 1
        push_cast
        ring
      · rw [max_eq_right hlt.le, max_eq_right, max_eq_right]
        · push_cast; nlinarith
        · nlinarith

/-- C9: with no move intent and a fixed positive deltaTime, currentMoveSpeed
strictly decreases on every tick while it is positive, a tick at exactly 0
leaves it at exactly 0, and after finitely many ticks it is exactly 0 and
stays 0 on all later ticks (handleMovement lines 439-441: the update is
max(speed - MOVE_DECELERATION * deltaTime, 0)). -/
theorem decel_monotonic (sh : Bool) (dt s : ℚ) (hdt : 0 < dt) (hs : 0 ≤ s) :
    (0 < s → handleMovementSpeed ⟨false, false, sh⟩ dt s < s) ∧
    handleMovementSpeed ⟨false, false, sh⟩ dt 0 = 0 ∧
    ∃ n : ℕ, ∀ m : ℕ, n ≤ m →
      (fun v => handleMovementSpeed ⟨false, false, sh⟩ dt v)^[m] s = 0 := by
  have hd : 0 < MOVE_DECELERATION * dt := by unfold MOVE_DECELERATION; nlinarith
  refine ⟨?_, ?_, ?_⟩
  · intro hpos
    rw [handleMovementSpeed_idle]
    exact max_lt (by nlinarith) hpos
  · rw [handleMovementSpeed_idle]
    rw [max_eq_right (by nlinarith)]
  · refine ⟨⌈s / (MOVE_DECELERATION * dt)⌉₊, fun m hm => ?_⟩
    rw [handleMovementSpeed_idle_iterate sh dt s hdt.le hs m]
    have hle : s / (MOVE_DECELERATION * dt) ≤ (m : ℚ) := by
      calc s / (MOVE_DECELERATION * dt) ≤ (⌈s / (MOVE_DECELERATION * dt)⌉₊ : ℚ) :=
            Nat.le_ceil _
        _ ≤ (m : ℚ) := by exact_mod_cast Nat.cast_le.mpr hm
    have : s ≤ (m : ℚ) * (MOVE_DECELERATION * dt) := by
      rw [div_le_iff₀ hd] at hle
      exact hle
    rw [max_eq_right (by nlinarith)]

/-- C9 witness: one idle tick from speed 1/8 strictly decreases it, and an
idle tick at 0 stays 0. -/
theorem decel_monotonic_witness :
    handleMovementSpeed ⟨false, false, false⟩ (1/60) (1/8) < 1/8 ∧
    handleMovementSpeed ⟨false, false, false⟩ (1/60) 0 = 0 := by
  have h := decel_monotonic false (1/60) (1/8) (by norm_num) (by norm_num)
  exact ⟨h.1 (by norm_num), h.2.1⟩

/-! ## C2: unit quaternion invariant -/

/-- C2 counterexample: the incremental update of controls module line 464 is a
bare left-multiplication with no renormalization.  Applying it with the unit
identity increment to a stored quaternion of norm 2 leaves the norm at 2
(normSq 4), whereas a left-multiply-then-renormalize update would return a
unit quaternion; so the update does not renormalize, and stored-norm 1 after
each update is not a consequence of renormalization. -/
theorem rotatePlanet_renormalize_cex :
    normSq qIdentity = 1 ∧
    normSq (rotatePlanet qIdentity ⟨0, 0, 0, 2⟩) = 4 ∧
    ¬ normSq (rotatePlanet qIdentity ⟨0, 0, 0, 2⟩) = 1 := by
  norm_num [rotatePlanet, qmul, normSq, qIdentity]

/-- C2 (amended): every incremental planet-rotation update left-multiplies the
stored quaternion by the increment without renormalizing; nevertheless, for
every sequence of updates whose increments are unit quaternions (as produced
by setFromAxisAngle on the normalized tangent axis) a unit stored quaternion
stays exactly unit after each update, because the Hamilton product of unit
quaternions is unit.  The second conjunct checks that the increment built by
handleMovement is indeed unit whenever the heading sine/cosine and the
half-angle sine/cosine satisfy the unit-circle identity. -/
theorem rotatePlanet_unit_invariant (q0 : Quat) (incs : List Quat)
    (h0 : normSq q0 = 1) (hincs : ∀ i ∈ incs, normSq i = 1) :
    normSq (incs.foldl (fun q i => rotatePlanet i q) q0) = 1 ∧
    ∀ sinH cosH sinHalf cosHalf : ℚ,
      sinH ^ 2 + cosH ^ 2 = 1 → sinHalf ^ 2 + cosHalf ^ 2 = 1 →
      normSq (mkRotationIncrement sinH cosH sinHalf cosHalf) = 1 := by
  constructor
  · induction incs generalizing q0 with
    | nil => simpa using h0
    | cons i rest ih =>
        have hi : normSq i = 1 := hincs i (List.mem_cons_self i rest)
        have hstep : normSq (rotatePlanet i q0) = 1 := by
          rw [rotatePlanet, normSq_qmul, hi, h0, mul_one]
        simpa using ih (rotatePlanet i q0) hstep
          (fun j hj => hincs j (List.mem_cons_of_mem i hj))
  · intro sinH cosH sinHalf cosHalf hH hHalf
    simp only [mkRotationIncrement, normSq]
    linear_combination (sinHalf * sinHalf) * hH + hHalf

/-- C2 witness: the invariant applied to the identity start and a single unit
increment, plus the increment-shape conjunct at the heading angle 0,
half-angle 0. -/
theorem rotatePlanet_unit_invariant_witness :
    normSq (List.foldl (fun q i => rotatePlanet i q) qIdentity [Quat.mk 0 0 1 0]) = 1 ∧
    normSq (mkRotationIncrement 0 1 0 1) = 1 := by
  have h := rotatePlanet_unit_invariant qIdentity [Quat.mk 0 0 1 0]
    (by norm_num [normSq, qIdentity])
    (by intro i hi; rcases List.mem_singleton.mp hi with rfl; norm_num [normSq])
  exact ⟨h.1, h.2 0 1 0 1 (by norm_num) (by norm_num)⟩

/-! ## C3: blocked-forward no-op -/

/-- A probe report that blocks movement per physics.js lines 132-139: a hit
whose implied step height exceeds 0.05 or whose distance is below 0.15. -/
def BlockingHit (t : LocoTick) : Prop :=
  ∃ obstacleHeight obstacleDistance : ℚ,
    t.hit = some (obstacleHeight, obstacleDistance) ∧
    (obstacleHeight - (t.posY - CHARACTER_HEIGHT) > 1/20 ∨ obstacleDistance < 3/20)

/-- A blocking probe report makes checkForwardCollision return true. -/
theorem checkForwardCollision_of_blocking (t : LocoTick) (hb : BlockingHit t) :
    checkForwardCollision t.hit t.posY = true := by
  obtain ⟨oh, od, hhit, hcond⟩ := hb
  rw [hhit]
  simp only [checkForwardCollision, Bool.or_eq_true, decide_eq_true_eq]
  rcases hcond with h | h
  · exact Or.inl h
  · exact Or.inr h

/-- A tick whose probe report blocks leaves the planet quaternion untouched. -/
theorem handleMovementPlanet_blocked (t : LocoTick) (st : LocoState)
    (hb : BlockingHit t) :
    (handleMovementPlanet t st).planetQ = st.planetQ := by
  have hc := checkForwardCollision_of_blocking t hb
  unfold handleMovementPlanet
  simp only [hc, if_true]
  split <;> rfl

/-- C3: on every tick whose short-range forward probe reports a hit with step
height above the 0.05 threshold or distance below the 0.15 clearance, the
planet quaternion is unchanged regardless of move intent, speed and the rest
of the tick data; and over any tick sequence whose probe always reports such
a blocking hit, the planet quaternion is never rotated. -/
theorem blocked_forward_noop (t : LocoTick) (st : LocoState) (ticks : List LocoTick)
    (hb : BlockingHit t) (hall : ∀ u ∈ ticks, BlockingHit u) :
    (handleMovementPlanet t st).planetQ = st.planetQ ∧
    (runLoco ticks st).planetQ = st.planetQ := by
  refine ⟨handleMovementPlanet_blocked t st hb, ?_⟩
  induction ticks generalizing st with
  | nil => rfl
  | cons u rest ih =>
      have hu := handleMovementPlanet_blocked u st
        (hall u (List.mem_cons_self u rest))
      calc (runLoco (u :: rest) st).planetQ
          = (runLoco rest (handleMovementPlanet u st)).planetQ := rfl
        _ = (handleMovementPlanet u st).planetQ :=
            ih (handleMovementPlanet u st) (fun v hv => hall v (List.mem_cons_of_mem u hv))
        _ = st.planetQ := hu

/-- C3 witness: a concrete blocked tick (full speed, forward intent, follow
camera) and a two-tick blocked sequence leave the planet quaternion at the
identity. -/
theorem blocked_forward_noop_witness :
    (handleMovementPlanet ⟨⟨true, false, false⟩, 1/60, false, 0, some (1, 1/10), 0, 1, 0, 1⟩
        ⟨MAX_MOVE_SPEED, qIdentity⟩).planetQ = qIdentity ∧
    (runLoco [⟨⟨true, false, false⟩, 1/60, false, 0, some (1, 1/10), 0, 1, 0, 1⟩,
              ⟨⟨false, true, true⟩, 1/30, false, 0, some (0, 1/10), 0, 1, 0, 1⟩]
        ⟨MAX_MOVE_SPEED, qIdentity⟩).planetQ = qIdentity := by
  have hb1 : BlockingHit ⟨⟨true, false, false⟩, 1/60, false, 0, some (1, 1/10), 0, 1, 0, 1⟩ :=
    ⟨1, 1/10, rfl, Or.inr (by norm_num)⟩
  have hb2 : BlockingHit ⟨⟨false, true, true⟩, 1/30, false, 0, some (0, 1/10), 0, 1, 0, 1⟩ :=
    ⟨0, 1/10, rfl, Or.inr (by norm_num)⟩
  have h := blocked_forward_noop
    ⟨⟨true, false, false⟩, 1/60, false, 0, some (1, 1/10), 0, 1, 0, 1⟩
    ⟨MAX_MOVE_SPEED, qIdentity⟩
    [⟨⟨true, false, false⟩, 1/60, false, 0, some (1, 1/10), 0, 1, 0, 1⟩,
     ⟨⟨false, true, true⟩, 1/30, false, 0, some (0, 1/10), 0, 1, 0, 1⟩]
    hb1
    (by
      intro u hu
      rcases List.mem_cons.mp hu with rfl | hu2
      · exact hb1
      · rcases List.mem_singleton.mp hu2 with rfl
        exact hb2)
  exact h

/-! ## C4: jump charge protocol -/

/-- C4: the Space handler (controls module lines 326-330) arms the charge only
from a grounded, not-yet-charging state and is otherwise a no-op; while
charging, a frame whose accumulated time stays below the 0.3s delay only
accumulates time, leaving the vertical velocity and grounded flag untouched
(so the velocity is still governed by gravity integration alone); the first
frame whose accumulated time reaches the delay sets the velocity to the jump
impulse and clears both grounded and jumpCharging (main.js lines 90-100). -/
theorem jump_charge_protocol (s : JumpState) (dt : ℚ) :
    (¬ (s.isGrounded = true ∧ s.jumpCharging = false) → jumpRequest s = s) ∧
    (s.isGrounded = true → s.jumpCharging = false →
      jumpRequest s = ⟨s.vy, s.isGrounded, true, 0⟩) ∧
    (s.jumpCharging = true → s.jumpChargeTime + dt < jumpChargeDelay →
      jumpChargeTick dt s = ⟨s.vy, s.isGrounded, true, s.jumpChargeTime + dt⟩) ∧
    (s.jumpCharging = true → jumpChargeDelay ≤ s.jumpChargeTime + dt →
      jumpChargeTick dt s = ⟨jumpForce, false, false, s.jumpChargeTime + dt⟩) ∧
    (s.jumpCharging = false → jumpChargeTick dt s = s) := by
  obtain ⟨vy, g, c, t⟩ := s
  refine ⟨?_, ?_, ?_, ?_, ?_⟩
  · intro hno
    unfold jumpRequest
    rw [if_neg hno]
  · intro hg hc
    simp only at hg hc
    subst hg; subst hc
    simp [jumpRequest]
  · intro hc hlt
    simp only at hc
    subst hc
    simp only at hlt
    simp [jumpChargeTick, not_le.mpr hlt]
  · intro hc hge
    simp only at hc
    subst hc
    simp only at hge
    simp [jumpChargeTick, hge]
  · intro hc
    simp only at hc
    subst hc
    simp [jumpChargeTick]

/-- C4 witness: a grounded jump request arms the charge; a 0.1s frame while
charging only accumulates time; the frame that pushes the accumulated time to
the 0.3s delay launches with velocity jumpForce and clears both flags. -/
theorem jump_charge_protocol_witness :
    jumpRequest ⟨0, true, false, 0⟩ = ⟨0, true, true, 0⟩ ∧
    jumpChargeTick (1/10) ⟨0, true, true, 0⟩ = ⟨0, true, true, 1/10⟩ ∧
    jumpChargeTick (1/10) ⟨0, true, true, 1/5⟩ = ⟨jumpForce, false, false, 3/10⟩ ∧
    jumpRequest ⟨0, false, false, 0⟩ = ⟨0, false, false, 0⟩ := by
  refine ⟨(jump_charge_protocol ⟨0, true, false, 0⟩ 0).2.1 rfl rfl, ?_, ?_, ?_⟩
  · have h := (jump_charge_protocol ⟨0, true, true, 0⟩ (1/10)).2.2.1 rfl
      (by norm_num [jumpChargeDelay])
    simpa using h
  · have h := (jump_charge_protocol ⟨0, true, true, 1/5⟩ (1/10)).2.2.2.1 rfl
      (by norm_num [jumpChargeDelay])
    rw [h]
    norm_num
  · exact (jump_charge_protocol ⟨0, false, false, 0⟩ 0).1 (by simp)

/-! ## C8: sprint camera distance target -/

/-- C8: in follow mode the per-state target distance satisfies idle < walk <
sprint; moving with sprint selects the sprint constant and moving without
sprint the walk constant (controls module lines 482-485); and one update step
moves the current distance toward the target by exactly the factor 1/40
(geometric, hence exponential approach), so a distance unequal to the target
never reaches it in a single step. -/
theorem sprint_camera_distance (d : ℚ) (b : Bool)
    (hne : d ≠ cameraTargetDistance true b) :
    CAMERA_DISTANCE_IDLE < CAMERA_DISTANCE_WALKING ∧
    CAMERA_DISTANCE_WALKING < CAMERA_DISTANCE_SPRINTING ∧
    cameraTargetDistance true true = CAMERA_DISTANCE_SPRINTING ∧
    cameraTargetDistance true false = CAMERA_DISTANCE_WALKING ∧
    cameraTargetDistance false b = CAMERA_DISTANCE_IDLE ∧
    lerpCameraDistance d (cameraTargetDistance true b) ≠ cameraTargetDistance true b ∧
    |lerpCameraDistance d (cameraTargetDistance true b) - cameraTargetDistance true b|
      = (39/40) * |d - cameraTargetDistance true b| := by
  set t := cameraTargetDistance true b with ht
  have hdiff : lerpCameraDistance d t - t = (d - t) * (39/40) := by
    unfold lerpCameraDistance
    ring
  refine ⟨by norm_num [CAMERA_DISTANCE_IDLE, CAMERA_DISTANCE_WALKING],
    by norm_num [CAMERA_DISTANCE_WALKING, CAMERA_DISTANCE_SPRINTING],
    by simp [cameraTargetDistance],
    by simp [cameraTargetDistance],
    by simp [cameraTargetDistance],
    ?_, ?_⟩
  · intro heq
    have : (d - t) * (39/40) = 0 := by rw [← hdiff, heq, sub_self]
    have hd0 : d - t = 0 := by
      rcases mul_eq_zero.mp this with h | h
      · exact h
      · norm_num at h
    exact hne (by linarith [sub_eq_zero.mp hd0])
  · rw [hdiff, abs_mul]
    rw [abs_of_pos (by norm_num : (0:ℚ) < 39/40)]
    ring

/-- C8 witness: the theorem at current distance 0 while moving with sprint
held: the target is the sprint constant 2.5 and one lerp step does not reach
it. -/
theorem sprint_camera_distance_witness :
    cameraTargetDistance true true = CAMERA_DISTANCE_SPRINTING ∧
    lerpCameraDistance 0 (cameraTargetDistance true true) ≠ cameraTargetDistance true true := by
  have h := sprint_camera_distance 0 true
    (by norm_num [cameraTargetDistance, CAMERA_DISTANCE_SPRINTING])
  exact ⟨h.2.2.1, h.2.2.2.2.2.1⟩

/-! ## C10: resetToSpawn effects -/

/-- C10: resetToSpawn zeroes all three velocity components, sets isGrounded to
false, sets the heading to the fixed value Math.PI (the same value the
character module initializes characterRotation to), and puts the character at
x = 0, z = 0; with the spawn globals absent the height falls back to
SPAWN_HEIGHT and the planet quaternion to the identity, while stored globals
(a nonzero spawn height, a spawn rotation) are used when present. -/
theorem resetToSpawn_effects (piVal : ℚ) (s : SpawnState) (oy : Option ℚ)
    (orot : Option Quat) :
    (resetToSpawn piVal oy orot s).velocity = (0, 0, 0) ∧
    (resetToSpawn piVal oy orot s).isGrounded = false ∧
    (resetToSpawn piVal oy orot s).characterRotation = piVal ∧
    (resetToSpawn piVal oy orot s).characterPosition.1 = 0 ∧
    (resetToSpawn piVal oy orot s).characterPosition.2.2 = 0 ∧
    (resetToSpawn piVal none none s).characterPosition = (0, SPAWN_HEIGHT, 0) ∧
    (resetToSpawn piVal none none s).planetQuaternion = qIdentity ∧
    (∀ yv : ℚ, yv ≠ 0 →
      (resetToSpawn piVal (some yv) orot s).characterPosition = (0, yv, 0)) ∧
    (∀ q : Quat, (resetToSpawn piVal oy (some q) s).planetQuaternion = q) := by
  refine ⟨rfl, rfl, rfl, rfl, rfl, rfl, rfl, fun yv hyv => ?_, fun q => rfl⟩
  simp [resetToSpawn, hyv]

/-- C10 witness: the reset with absent globals and with stored globals
(spawn height 7, a stored spawn rotation) from an arbitrary dirty state. -/
theorem resetToSpawn_effects_witness :
    (resetToSpawn 3 none none ⟨(1, 2, 3), 4, (5, 6, 7), true, ⟨1, 0, 0, 0⟩⟩).velocity
        = (0, 0, 0) ∧
    (resetToSpawn 3 none none ⟨(1, 2, 3), 4, (5, 6, 7), true, ⟨1, 0, 0, 0⟩⟩).characterPosition
        = (0, SPAWN_HEIGHT, 0) ∧
    (resetToSpawn 3 none none ⟨(1, 2, 3), 4, (5, 6, 7), true, ⟨1, 0, 0, 0⟩⟩).planetQuaternion
        = qIdentity ∧
    (resetToSpawn 3 (some 7) none ⟨(1, 2, 3), 4, (5, 6, 7), true, ⟨1, 0, 0, 0⟩⟩).characterPosition
        = (0, 7, 0) ∧
    (resetToSpawn 3 none (some ⟨0, 1, 0, 0⟩) ⟨(1, 2, 3), 4, (5, 6, 7), true, ⟨1, 0, 0, 0⟩⟩).planetQuaternion
        = ⟨0, 1, 0, 0⟩ := by
  have h1 := resetToSpawn_effects 3 ⟨(1, 2, 3), 4, (5, 6, 7), true, ⟨1, 0, 0, 0⟩⟩ none none
  have h2 := resetToSpawn_effects 3 ⟨(1, 2, 3), 4, (5, 6, 7), true, ⟨1, 0, 0, 0⟩⟩ (some 7) none
  exact ⟨h1.1, h1.2.2.2.2.2.1, h1.2.2.2.2.2.2.1,
    h2.2.2.2.2.2.2.2.1 7 (by norm_num),
    h1.2.2.2.2.2.2.2.2 ⟨0, 1, 0, 0⟩⟩

/-! ## C7: safety-net ground invariant -/

/-- C7: on every updatePhysics tick, the long-range (far = 50) downward probe
is cast from the pre-update height independently of the descent logic; if it
reports a surface and the tick would otherwise end with the character below
that surface, the character is teleported to the surface plus the 0.5 margin
with zeroed vertical velocity; consequently every updatePhysics call whose
long-range probe hits ends with the character at or above the detected
surface (physics.js lines 105-117). -/
theorem safety_net_ground (ray : DownRay) (dt : ℚ) (s : PhysState) (groundY : ℚ)
    (hhit : ray s.y 50 = some groundY) :
    ((updatePhysicsDescent ray dt s).y < groundY →
      updatePhysics ray dt s = ⟨groundY + 1/2, 0, true⟩) ∧
    groundY ≤ (updatePhysics ray dt s).y := by
  unfold updatePhysics
  rw [hhit]
  dsimp only
  constructor
  · intro hbelow
    rw [if_pos hbelow]
  · rcases lt_or_le (updatePhysicsDescent ray dt s).y groundY with hlt | hge
    · rw [if_pos hlt]
      norm_num
    · rw [if_neg (not_lt.mpr hge)]
      exact hge

/-- C7 witness: a long-range ray reporting a surface at height 5 while the
character moves upward from height 0 (so the descent logic never consults the
probe): the tick still ends teleported to 5.5 with zero velocity, at or above
the surface. -/
theorem safety_net_ground_witness :
    updatePhysics (fun _ far => if far = 50 then some 5 else none) (1/60) ⟨0, 10, false⟩
        = ⟨5 + 1/2, 0, true⟩ ∧
    (5:ℚ) ≤ (updatePhysics (fun _ far => if far = 50 then some 5 else none) (1/60)
        ⟨0, 10, false⟩).y := by
  have h := safety_net_ground (fun _ far => if far = 50 then some 5 else none)
    (1/60) ⟨0, 10, false⟩ 5 (by norm_num)
  refine ⟨h.1 ?_, h.2⟩
  norm_num [updatePhysicsDescent, GRAVITY]

/-! ## C5: ground snap idempotence -/

/-- One updatePhysics tick over a flat surface is the identity on the resting
snapped state: height groundY + 0.03, zero velocity, grounded. -/
theorem updatePhysics_rest_fixed (g dt : ℚ) (hdt : 0 < dt) :
    updatePhysics (flatProbe g) dt ⟨g + 3/100, 0, true⟩ = ⟨g + 3/100, 0, true⟩ := by
  have hdelta : ((0:ℚ) - GRAVITY * dt) * dt < 0 := by
    unfold GRAVITY; nlinarith
  have habs : |((0:ℚ) - GRAVITY * dt) * dt| = GRAVITY * dt * dt := by
    rw [abs_of_neg hdelta]; ring
  have hvyabs : |(0:ℚ) - GRAVITY * dt| = GRAVITY * dt := by
    rw [abs_of_nonpos (by unfold GRAVITY; nlinarith)]; ring
  have hdescent : updatePhysicsDescent (flatProbe g) dt ⟨g + 3/100, 0, true⟩
      = ⟨g + 3/100, 0, true⟩ := by
    unfold updatePhysicsDescent
    have hprobe : flatProbe g (g + 3/100) (|((0:ℚ) - GRAVITY * dt) * dt| + 1) = some g := by
      unfold flatProbe
      rw [if_pos]
      constructor
      · linarith
      · rw [habs]
        unfold GRAVITY
        nlinarith
    rw [if_pos hdelta, hprobe]
    dsimp only
    rw [if_pos]
    constructor
    · rw [hvyabs]
      unfold GRAVITY
      nlinarith
    · unfold GRAVITY
      nlinarith
  unfold updatePhysics
  rw [hdescent]
  have hprobe50 : flatProbe g (g + 3/100) 50 = some g := by
    unfold flatProbe
    rw [if_pos]
    constructor <;> linarith
  rw [hprobe50]
  dsimp only
  rw [if_neg (by linarith : ¬ (g + 3/100 < g))]

/-- C5: a character resting grounded on a detected flat surface (snapped to
groundY + 0.03 with zero vertical velocity) is a fixed point of the vertical
physics tick: every further fixed-timestep updatePhysics call leaves the
height unchanged and ends with verticalVelocity 0 and grounded still true
(physics.js lines 42-118: gravity pulls the velocity down, the descent ray
hits, the 0.05-based tolerance test snaps straight back). -/
theorem ground_snap_idempotent (g dt : ℚ) (hdt : 0 < dt) (n : ℕ) :
    (updatePhysics (flatProbe g) dt)^[n] ⟨g + 3/100, 0, true⟩ = ⟨g + 3/100, 0, true⟩ := by
  exact Function.iterate_fixed (updatePhysics_rest_fixed g dt hdt) n

/-- C5 witness: three 1/60-second ticks on a flat surface at height 0 leave
the resting state untouched. -/
theorem ground_snap_idempotent_witness :
    (updatePhysics (flatProbe 0) (1/60))^[3] ⟨(0:ℚ) + 3/100, 0, true⟩
      = ⟨(0:ℚ) + 3/100, 0, true⟩ :=
  ground_snap_idempotent 0 (1/60) (by norm_num) 3

/-! ## C6: detached-camera snapshot/restore round-trip -/

/-- The detached-mode planet copy of updateCamera touches only the planet
quaternion: iterating it preserves the mode flag, the saved snapshot slots,
the character fields and the bird's-eye rotation. -/
theorem updateCameraDetachedPlanet_iterate (n : ℕ) (t : ViewState) :
    ((updateCameraDetachedPlanet^[n]) t).detachedCamera = t.detachedCamera ∧
    ((updateCameraDetachedPlanet^[n]) t).savedPlanetRotation = t.savedPlanetRotation ∧
    ((updateCameraDetachedPlanet^[n]) t).savedCharacterRotation = t.savedCharacterRotation ∧
    ((updateCameraDetachedPlanet^[n]) t).savedCharacterPosition = t.savedCharacterPosition := by
  induction n with
  | zero => exact ⟨rfl, rfl, rfl, rfl⟩
  | succ k ih =>
      rw [Function.iterate_succ_apply']
      exact ih

/-- C6: toggling the detached camera twice from follow mode, with any number
of intervening detached-mode camera updates but no drag input, restores the
planet rotation quaternion, the character heading and the character anchor
position exactly to their pre-toggle values, and re-shows the character
(controls module lines 358-393: entering copies the three values into the
saved slots, leaving copies them back and sets visible). -/
theorem detached_camera_roundtrip (s : ViewState) (n : ℕ)
    (h : s.detachedCamera = false) :
    (toggleBirdEyeView ((updateCameraDetachedPlanet^[n]) (toggleBirdEyeView s))).planetQuaternion
        = s.planetQuaternion ∧
    (toggleBirdEyeView ((updateCameraDetachedPlanet^[n]) (toggleBirdEyeView s))).characterRotation
        = s.characterRotation ∧
    (toggleBirdEyeView ((updateCameraDetachedPlanet^[n]) (toggleBirdEyeView s))).characterPosition
        = s.characterPosition ∧
    (toggleBirdEyeView ((updateCameraDetachedPlanet^[n]) (toggleBirdEyeView s))).characterVisible
        = true := by
  have henter : toggleBirdEyeView s =
      { s with detachedCamera := true,
               savedPlanetRotation := s.planetQuaternion,
               savedCharacterRotation := s.characterRotation,
               savedCharacterPosition := s.characterPosition,
               birdEyeRotation := s.planetQuaternion,
               characterVisible := false } := by
    unfold toggleBirdEyeView
    rw [if_pos h]
  have hiter := updateCameraDetachedPlanet_iterate n (toggleBirdEyeView s)
  set t := (updateCameraDetachedPlanet^[n]) (toggleBirdEyeView s) with ht
  have htd : t.detachedCamera = true := by
    rw [hiter.1, henter]
  have hexit : toggleBirdEyeView t =
      { t with detachedCamera := false,
               isDragging := false,
               planetQuaternion := t.savedPlanetRotation,
               characterRotation := t.savedCharacterRotation,
               characterPosition := t.savedCharacterPosition,
               characterVisible := true } := by
    unfold toggleBirdEyeView
    rw [if_neg (by rw [htd]; exact fun hfalse => Bool.noConfusion hfalse)]
  rw [hexit]
  refine ⟨?_, ?_, ?_, rfl⟩
  · show t.savedPlanetRotation = s.planetQuaternion
    rw [hiter.2.1, henter]
  · show t.savedCharacterRotation = s.characterRotation
    rw [hiter.2.2.1, henter]
  · show t.savedCharacterPosition = s.characterPosition
    rw [hiter.2.2.2, henter]

/-- C6 witness: the round-trip applied to a concrete follow-mode state with
two detached-mode camera updates in between. -/
theorem detached_camera_roundtrip_witness :
    (toggleBirdEyeView ((updateCameraDetachedPlanet^[2]) (toggleBirdEyeView
        ⟨false, false, ⟨1, 2, 3, 4⟩, 5, (6, 7, 8), true, qIdentity,
         ⟨9, 9, 9, 9⟩, 9, (9, 9, 9)⟩))).planetQuaternion = ⟨1, 2, 3, 4⟩ ∧
    (toggleBirdEyeView ((updateCameraDetachedPlanet^[2]) (toggleBirdEyeView
        ⟨false, false, ⟨1, 2, 3, 4⟩, 5, (6, 7, 8), true, qIdentity,
         ⟨9, 9, 9, 9⟩, 9, (9, 9, 9)⟩))).characterRotation = 5 ∧
    (toggleBirdEyeView ((updateCameraDetachedPlanet^[2]) (toggleBirdEyeView
        ⟨false, false, ⟨1, 2, 3, 4⟩, 5, (6, 7, 8), true, qIdentity,
         ⟨9, 9, 9, 9⟩, 9, (9, 9, 9)⟩))).characterPosition = (6, 7, 8) ∧
    (toggleBirdEyeView ((updateCameraDetachedPlanet^[2]) (toggleBirdEyeView
        ⟨false, false, ⟨1, 2, 3, 4⟩, 5, (6, 7, 8), true, qIdentity,
         ⟨9, 9, 9, 9⟩, 9, (9, 9, 9)⟩))).characterVisible = true :=
  detached_camera_roundtrip
    ⟨false, false, ⟨1, 2, 3, 4⟩, 5, (6, 7, 8), true, qIdentity,
     ⟨9, 9, 9, 9⟩, 9, (9, 9, 9)⟩ 2 rfl

end MaxWorld
